import Mathlib

/-!
Verification of the franklin-api registration and webhook flows.

The definitions below are a shallow embedding of the Python source:
  - `Site` and `Site.save` embed builder/models.py;
  - `repository_list_post` embeds the POST branch of
    `repository_list` in github/views.py (lines 142 to 161);
  - `repository_detail` embeds `repository_detail` (lines 189 to 202);
  - `deploy_hook` embeds `deploy_hook` (lines 258 to 291);
  - `is_success` embeds `rest_framework.status.is_success`.

External HTTP effects are recorded as a trace of `ExtCall` values, and the
persisted records as an explicit list passed in and out.
-/

namespace Franklin

/-- Embeds rest_framework.status.is_success: a status code counts as success
exactly when it lies in the 2xx range. -/
def is_success (code : Nat) : Bool := 200 ≤ code && code ≤ 299

/-- Embeds the Site model of builder/models.py. The model declares the fields
repo_name, git_hash and path (plus an auto-generated uuid primary key, omitted
here because no flow under verification reads it). The model has no field for
a webhook id, a deploy key id, or an active flag. -/
structure Site where
  repo_name : String
  git_hash : String
  path : String
deriving DecidableEq, Repr

/-- Embeds Site.save of builder/models.py: before persisting, the path is
recomputed as BASE_PROJECT_PATH joined with repo_name by a slash, overwriting
whatever value the field held. -/
def Site.save (base_path : String) (s : Site) : Site :=
  { s with path := base_path ++ "/" ++ s.repo_name }

/-- The external HTTP calls the flows can make, recorded as a trace. -/
inductive ExtCall where
  | fetchConfig
  | createWebhook
  | createDeployKey
  | deleteWebhook
  | deleteDeployKey
deriving DecidableEq, Repr

/-- The result of a registration request: either an HTTP response with a
status code, or an unhandled Python name error (an exception escaping the
view because a local variable was read before assignment). -/
inductive RegResult where
  | response (code : Nat)
  | nameError
deriving DecidableEq, Repr

/-- Inputs determining one run of the POST branch of repository_list:
whether SiteSerializer.is_valid() returns true, the Site the serializer
would save, the result of request.user.details.has_repo_access, the status
codes returned by the two GitHub create calls, and BASE_PROJECT_PATH. -/
structure RegistrationRequest where
  valid : Bool
  siteData : Site
  hasRepoAccess : Bool
  webhookStatus : Nat
  deployKeyStatus : Nat
  basePath : String
deriving DecidableEq, Repr

/-- Outcome of a registration run: the response, the persisted records, and
the trace of external calls made. -/
structure RegOutcome where
  result : RegResult
  db : List Site
  calls : List ExtCall
deriving DecidableEq, Repr

/-- Embeds the POST branch of repository_list (github/views.py 142 to 161).

Control flow of the source: if the serializer validates, serializer.save()
persists the record at once (Site.save recomputes the path); only then is
has_repo_access checked, returning 403 with the record left in place. The
code then fetches the optional franklin config, creates the webhook, and on
any non-2xx status returns that status with no compensation; likewise for
the deploy key call; otherwise it returns 201. Nothing is ever written back
to the record after the create calls. If the serializer does not validate,
no branch returns: control falls to the get_franklin_config(site, ...) line
where the local variable site was never assigned, so the request dies with
a name error before any external call. -/
def repository_list_post (req : RegistrationRequest) (db : List Site) : RegOutcome :=
  if req.valid then
    let site := Site.save req.basePath req.siteData
    let db1 := db ++ [site]
    if !req.hasRepoAccess then
      ⟨RegResult.response 403, db1, []⟩
    else if !is_success req.webhookStatus then
      ⟨RegResult.response req.webhookStatus, db1,
        [ExtCall.fetchConfig, ExtCall.createWebhook]⟩
    else if !is_success req.deployKeyStatus then
      ⟨RegResult.response req.deployKeyStatus, db1,
        [ExtCall.fetchConfig, ExtCall.createWebhook, ExtCall.createDeployKey]⟩
    else
      ⟨RegResult.response 201, db1,
        [ExtCall.fetchConfig, ExtCall.createWebhook, ExtCall.createDeployKey]⟩
  else
    ⟨RegResult.nameError, db, []⟩

/-- HTTP method of a repository_detail request. -/
inductive Method where
  | get
  | delete
deriving DecidableEq, Repr

/-- Outcome of a repository_detail run. The registry is modelled as an
association list from the github id the view queries to the record
(views.py filters with Site.objects.get(github_id=pk); builder/models.py
does not declare that column, so the lookup key is carried alongside the
record here). -/
structure DetailOutcome where
  result : RegResult
  db : List (Nat × Site)
  calls : List ExtCall
deriving DecidableEq, Repr

/-- Embeds repository_detail (github/views.py 189 to 202): look the record
up by github id, returning 404 when absent; return 403 when has_repo_access
fails; on GET return the serialized record with 200; on DELETE call
site.delete() and return 204. The view makes no external HTTP call on any
path, and the delete is immediate and unconditional once access is granted. -/
def repository_detail (method : Method) (pk : Nat) (hasRepoAccess : Bool)
    (db : List (Nat × Site)) : DetailOutcome :=
  match db.find? (fun e => e.1 == pk) with
  | none => ⟨RegResult.response 404, db, []⟩
  | some _ =>
    if !hasRepoAccess then
      ⟨RegResult.response 403, db, []⟩
    else
      match method with
      | Method.get => ⟨RegResult.response 200, db, []⟩
      | Method.delete =>
          ⟨RegResult.response 204, db.filter (fun e => !(e.1 == pk)), []⟩

/-- Inputs determining one run of deploy_hook: the X-GitHub-Event header
(absent or its value), whether GithubWebhookSerializer.is_valid() holds,
the result of github_event.get_existing_site(), whether
site.get_deployable_event returns an environment, and whether the ENV
variable differs (by identity) from the test marker. -/
structure HookRequest where
  eventType : Option String
  payloadValid : Bool
  existingSite : Option Site
  deployableEvent : Bool
  envIsNotTest : Bool
deriving DecidableEq, Repr

/-- Outcome of a deploy_hook run: the response status code, whether the
registry lookup get_existing_site was reached, and whether
environment.build() was invoked. -/
structure HookOutcome where
  statusCode : Nat
  registryLookup : Bool
  buildInvoked : Bool
deriving DecidableEq, Repr

/-- Embeds the view body of deploy_hook (github/views.py 258 to 291).

For a push or create event the payload is validated; only when valid is
get_existing_site() called. A missing site, an invalid payload, a missing
or unrecognized event header, and the non-building test branch all fall
through to the final 400 response. A deployable event builds and returns
201 when ENV is not the test marker. A ping event returns 204 at once,
touching neither registry nor build. -/
def deploy_hook (req : HookRequest) : HookOutcome :=
  match req.eventType with
  | some et =>
    if et = "push" ∨ et = "create" then
      if req.payloadValid then
        match req.existingSite with
        | some _ =>
          if req.deployableEvent then
            if req.envIsNotTest then ⟨201, true, true⟩
            else ⟨400, true, false⟩
          else ⟨200, true, false⟩
        | none => ⟨400, true, false⟩
      else ⟨400, false, false⟩
    else if et = "ping" then ⟨204, false, false⟩
    else ⟨400, false, false⟩
  | none => ⟨400, false, false⟩

/-- Modelled from the spec: the GithubOnly permission class lives in
core/helpers.py, which is not among the provided sources; per the spec the
authenticity marker of an inbound event is checked before any parsing or
registry work, and the framework runs permission classes before the view
body, so an unauthenticated request is rejected with a permission-denied
response and the view never executes. -/
def deploy_hook_endpoint (authenticated : Bool) (req : HookRequest) : HookOutcome :=
  if authenticated then deploy_hook req else ⟨403, false, false⟩

/-- C8: every persist recomputes the deploy path server side as the
configured base path joined with the repository name; a client supplied
path value is discarded, never kept, and the other fields are unchanged. -/
theorem C8_path_recomputed (base : String) (s : Site) (p : String) :
    Site.save base { s with path := p } = Site.save base s
    ∧ (Site.save base s).path = base ++ "/" ++ s.repo_name
    ∧ (Site.save base s).repo_name = s.repo_name
    ∧ (Site.save base s).git_hash = s.git_hash :=
  ⟨rfl, rfl, rfl, rfl⟩

/-- C10: when serializer validation fails, the handler does not return a
bad request response from the validation branch; control falls through to
the configuration fetch where the site variable was never bound, so the
request ends in a name error, with no record persisted and no external
call made. -/
theorem C10_validation_fallthrough (req : RegistrationRequest) (db : List Site)
    (h : req.valid = false) :
    (repository_list_post req db).result = RegResult.nameError
    ∧ (repository_list_post req db).result ≠ RegResult.response 400
    ∧ (repository_list_post req db).db = db
    ∧ (repository_list_post req db).calls = [] := by
  simp [repository_list_post, h]

/-- Witness for C10 at a concrete invalid request. -/
theorem C10_validation_fallthrough_witness :
    (repository_list_post ⟨false, ⟨"repo", "", ""⟩, true, 201, 201, "base"⟩ []).result
        = RegResult.nameError
    ∧ (repository_list_post ⟨false, ⟨"repo", "", ""⟩, true, 201, 201, "base"⟩ []).result
        ≠ RegResult.response 400
    ∧ (repository_list_post ⟨false, ⟨"repo", "", ""⟩, true, 201, 201, "base"⟩ []).db = []
    ∧ (repository_list_post ⟨false, ⟨"repo", "", ""⟩, true, 201, 201, "base"⟩ []).calls = [] :=
  C10_validation_fallthrough ⟨false, ⟨"repo", "", ""⟩, true, 201, 201, "base"⟩ [] rfl

/-- C9: an authenticated ping event always yields the 204 success response
and never reaches the registry lookup or the build trigger, whatever
repository the event references. -/
theorem C9_ping_success (req : HookRequest) (h : req.eventType = some "ping") :
    (deploy_hook_endpoint true req).statusCode = 204
    ∧ is_success (deploy_hook_endpoint true req).statusCode = true
    ∧ (deploy_hook_endpoint true req).buildInvoked = false
    ∧ (deploy_hook_endpoint true req).registryLookup = false := by
  simp [deploy_hook_endpoint, deploy_hook, h, is_success]

/-- Witness for C9 at a concrete ping event referencing a known repository. -/
theorem C9_ping_success_witness :
    (deploy_hook_endpoint true ⟨some "ping", true, some ⟨"repo", "", "base/repo"⟩, true, true⟩).statusCode = 204
    ∧ is_success (deploy_hook_endpoint true ⟨some "ping", true, some ⟨"repo", "", "base/repo"⟩, true, true⟩).statusCode = true
    ∧ (deploy_hook_endpoint true ⟨some "ping", true, some ⟨"repo", "", "base/repo"⟩, true, true⟩).buildInvoked = false
    ∧ (deploy_hook_endpoint true ⟨some "ping", true, some ⟨"repo", "", "base/repo"⟩, true, true⟩).registryLookup = false :=
  C9_ping_success ⟨some "ping", true, some ⟨"repo", "", "base/repo"⟩, true, true⟩ rfl

/-- C7: an unauthenticated event, a missing or unrecognized event header,
and an unparsable push or create payload are all rejected with an error
response before the registry lookup runs and before the build trigger can
be invoked. -/
theorem C7_reject_before_work (auth : Bool) (req : HookRequest)
    (h : auth = false
      ∨ req.eventType = none
      ∨ (∃ et, req.eventType = some et ∧ et ≠ "push" ∧ et ≠ "create" ∧ et ≠ "ping")
      ∨ ((req.eventType = some "push" ∨ req.eventType = some "create")
          ∧ req.payloadValid = false)) :
    (deploy_hook_endpoint auth req).registryLookup = false
    ∧ (deploy_hook_endpoint auth req).buildInvoked = false
    ∧ is_success (deploy_hook_endpoint auth req).statusCode = false := by
  cases auth with
  | false => simp [deploy_hook_endpoint, is_success]
  | true =>
    rcases h with h | h | ⟨et, het, h1, h2, h3⟩ | ⟨hty, hpv⟩
    · exact absurd h (by simp)
    · simp [deploy_hook_endpoint, deploy_hook, h, is_success]
    · simp [deploy_hook_endpoint, deploy_hook, het, h1, h2, h3, is_success]
    · rcases hty with h | h <;>
        simp [deploy_hook_endpoint, deploy_hook, h, hpv, is_success]

/-- Witness for C7 at a concrete unauthenticated push event. -/
theorem C7_reject_before_work_witness :
    (deploy_hook_endpoint false ⟨some "push", true, some ⟨"repo", "", "base/repo"⟩, true, true⟩).registryLookup = false
    ∧ (deploy_hook_endpoint false ⟨some "push", true, some ⟨"repo", "", "base/repo"⟩, true, true⟩).buildInvoked = false
    ∧ is_success (deploy_hook_endpoint false ⟨some "push", true, some ⟨"repo", "", "base/repo"⟩, true, true⟩).statusCode = false :=
  C7_reject_before_work false ⟨some "push", true, some ⟨"repo", "", "base/repo"⟩, true, true⟩
    (Or.inl rfl)

/-- C5 fails on the code: a valid, authenticated push event whose
repository matches no registered record falls through to the final 400
bad request response, an error, not a no-op success. -/
theorem C5_counterexample :
    (deploy_hook_endpoint true ⟨some "push", true, none, true, true⟩).statusCode = 400
    ∧ is_success (deploy_hook_endpoint true ⟨some "push", true, none, true, true⟩).statusCode
        = false := by
  decide

/-- C5 amended: an authenticated, well-formed push or create event whose
repository matches no registered record performs the registry lookup, does
not build, and then falls through to the catch-all 400 bad request
response rather than reporting a no-op success. -/
theorem C5_no_match_bad_request (req : HookRequest)
    (hty : req.eventType = some "push" ∨ req.eventType = some "create")
    (hpv : req.payloadValid = true) (hes : req.existingSite = none) :
    deploy_hook_endpoint true req = ⟨400, true, false⟩ := by
  rcases hty with h | h <;>
    simp [deploy_hook_endpoint, deploy_hook, h, hpv, hes]

/-- Witness for the amended C5 at a concrete unmatched create event. -/
theorem C5_no_match_bad_request_witness :
    deploy_hook_endpoint true ⟨some "create", true, none, true, true⟩
      = (⟨400, true, false⟩ : HookOutcome) :=
  C5_no_match_bad_request ⟨some "create", true, none, true, true⟩ (Or.inr rfl) rfl rfl

/-- C1 fails on the code: with the webhook created (201) and the deploy
key call failing with 500, not an already-exists response, the handler
returns the 500 error but never issues a webhook delete and leaves the
persisted record in place. -/
theorem C1_counterexample :
    (repository_list_post ⟨true, ⟨"repo", "", ""⟩, true, 201, 500, "base"⟩ []).result
        = RegResult.response 500
    ∧ ExtCall.deleteWebhook
        ∉ (repository_list_post ⟨true, ⟨"repo", "", ""⟩, true, 201, 500, "base"⟩ []).calls
    ∧ (repository_list_post ⟨true, ⟨"repo", "", ""⟩, true, 201, 500, "base"⟩ []).db
        = [⟨"repo", "", "base/repo"⟩] := by
  decide

/-- C1 amended: when deploy key creation fails after the webhook was
created, the handler returns the original error status with no
compensation at all: the webhook is not deleted and the persisted record
remains. -/
theorem C1_no_compensation (req : RegistrationRequest) (db : List Site)
    (hv : req.valid = true) (ha : req.hasRepoAccess = true)
    (hw : is_success req.webhookStatus = true)
    (hk : is_success req.deployKeyStatus = false) :
    (repository_list_post req db).result = RegResult.response req.deployKeyStatus
    ∧ ExtCall.deleteWebhook ∉ (repository_list_post req db).calls
    ∧ (repository_list_post req db).db = db ++ [Site.save req.basePath req.siteData] := by
  simp [repository_list_post, hv, ha, hw, hk]

/-- Witness for the amended C1 at a concrete deploy key failure. -/
theorem C1_no_compensation_witness :
    (repository_list_post ⟨true, ⟨"site", "", ""⟩, true, 200, 503, "base"⟩ []).result
        = RegResult.response 503
    ∧ ExtCall.deleteWebhook
        ∉ (repository_list_post ⟨true, ⟨"site", "", ""⟩, true, 200, 503, "base"⟩ []).calls
    ∧ (repository_list_post ⟨true, ⟨"site", "", ""⟩, true, 200, 503, "base"⟩ []).db
        = [] ++ [Site.save "base" ⟨"site", "", ""⟩] :=
  C1_no_compensation ⟨true, ⟨"site", "", ""⟩, true, 200, 503, "base"⟩ [] rfl rfl rfl rfl

/-- C2 fails on the code: the permission check runs only after
serializer.save() has persisted the record, so a rejected registration
reports 403 yet the record remains persisted, a visible mutation. -/
theorem C2_counterexample :
    (repository_list_post ⟨true, ⟨"repo", "", ""⟩, false, 201, 201, "base"⟩ []).result
        = RegResult.response 403
    ∧ (repository_list_post ⟨true, ⟨"repo", "", ""⟩, false, 201, 201, "base"⟩ []).db
        = [⟨"repo", "", "base/repo"⟩] := by
  decide

/-- C2 amended: validation and permission failures happen before any
external create call, but not before persistence: a validation failure
ends in a name error with no record persisted, while a permission failure
returns 403 after the record was already persisted and leaves it in
place. -/
theorem C2_checks_before_external_calls (req : RegistrationRequest) (db : List Site)
    (h : req.valid = false ∨ req.hasRepoAccess = false) :
    ExtCall.createWebhook ∉ (repository_list_post req db).calls
    ∧ ExtCall.createDeployKey ∉ (repository_list_post req db).calls
    ∧ (req.valid = false →
        (repository_list_post req db).result = RegResult.nameError
        ∧ (repository_list_post req db).db = db)
    ∧ (req.valid = true →
        (repository_list_post req db).result = RegResult.response 403
        ∧ (repository_list_post req db).db = db ++ [Site.save req.basePath req.siteData]) := by
  rcases h with h | h
  · simp [repository_list_post, h]
  · cases hv : req.valid with
    | false => simp [repository_list_post, hv]
    | true => simp [repository_list_post, hv, h]

/-- Witness for the amended C2 at a concrete permission failure. -/
theorem C2_checks_before_external_calls_witness :
    ExtCall.createWebhook
        ∉ (repository_list_post ⟨true, ⟨"repo", "", ""⟩, false, 201, 201, "base"⟩ []).calls
    ∧ ExtCall.createDeployKey
        ∉ (repository_list_post ⟨true, ⟨"repo", "", ""⟩, false, 201, 201, "base"⟩ []).calls
    ∧ (true = false →
        (repository_list_post ⟨true, ⟨"repo", "", ""⟩, false, 201, 201, "base"⟩ []).result
            = RegResult.nameError
        ∧ (repository_list_post ⟨true, ⟨"repo", "", ""⟩, false, 201, 201, "base"⟩ []).db = [])
    ∧ (true = true →
        (repository_list_post ⟨true, ⟨"repo", "", ""⟩, false, 201, 201, "base"⟩ []).result
            = RegResult.response 403
        ∧ (repository_list_post ⟨true, ⟨"repo", "", ""⟩, false, 201, 201, "base"⟩ []).db
            = [] ++ [Site.save "base" ⟨"repo", "", ""⟩]) :=
  C2_checks_before_external_calls ⟨true, ⟨"repo", "", ""⟩, false, 201, 201, "base"⟩ []
    (Or.inr rfl)

/-- C3 fails on the code: an already-exists response (422) from the
webhook create call is not treated as success; the registration aborts
with 422 and the deploy key call is never made. -/
theorem C3_counterexample :
    (repository_list_post ⟨true, ⟨"repo", "", ""⟩, true, 422, 201, "base"⟩ []).result
        = RegResult.response 422
    ∧ ExtCall.createDeployKey
        ∉ (repository_list_post ⟨true, ⟨"repo", "", ""⟩, true, 422, 201, "base"⟩ []).calls := by
  decide

/-- C3 amended: only a genuine 2xx response lets the flow proceed; any
non-2xx status from either create call, an already-exists 422 included,
aborts the registration with that status, and 201 is returned exactly
when both calls return 2xx. -/
theorem C3_only_2xx_success (req : RegistrationRequest) (db : List Site)
    (hv : req.valid = true) (ha : req.hasRepoAccess = true) :
    (is_success req.webhookStatus = false →
      (repository_list_post req db).result = RegResult.response req.webhookStatus
      ∧ ExtCall.createDeployKey ∉ (repository_list_post req db).calls)
    ∧ (is_success req.webhookStatus = true → is_success req.deployKeyStatus = false →
      (repository_list_post req db).result = RegResult.response req.deployKeyStatus)
    ∧ (is_success req.webhookStatus = true → is_success req.deployKeyStatus = true →
      (repository_list_post req db).result = RegResult.response 201) := by
  refine ⟨fun h1 => ?_, fun h1 h2 => ?_, fun h1 h2 => ?_⟩
  · simp [repository_list_post, hv, ha, h1]
  · simp [repository_list_post, hv, ha, h1, h2]
  · simp [repository_list_post, hv, ha, h1, h2]

/-- Witness for the amended C3: a 422 from the deploy key call aborts the
registration with status 422. -/
theorem C3_only_2xx_success_witness :
    (repository_list_post ⟨true, ⟨"repo", "", ""⟩, true, 201, 422, "base"⟩ []).result
        = RegResult.response 422 :=
  (C3_only_2xx_success ⟨true, ⟨"repo", "", ""⟩, true, 201, 422, "base"⟩ [] rfl rfl).2.1 rfl rfl

/-- C4 fails on the code: a fully successful registration persists a
record equal to the recomputed client data; the Site model has no webhook
id or deploy key id field, nothing from the create responses is written
back, and the persisted records do not depend on the create call
responses at all. -/
theorem C4_counterexample :
    (repository_list_post ⟨true, ⟨"repo", "sha", "client/path"⟩, true, 201, 201, "base"⟩ []).result
        = RegResult.response 201
    ∧ (repository_list_post ⟨true, ⟨"repo", "sha", "client/path"⟩, true, 201, 201, "base"⟩ []).db
        = [⟨"repo", "sha", "base/repo"⟩]
    ∧ (repository_list_post ⟨true, ⟨"repo", "sha", "client/path"⟩, true, 200, 299, "base"⟩ []).db
        = (repository_list_post ⟨true, ⟨"repo", "sha", "client/path"⟩, true, 201, 201, "base"⟩ []).db := by
  decide

/-- C4 amended: a successful registration returns 201 and persists exactly
the record produced by Site.save from the client data, which carries only
repo_name, git_hash and the recomputed path; no external-resource handles
exist on the model or are stored by a finalize step. -/
theorem C4_record_without_handles (req : RegistrationRequest) (db : List Site)
    (hv : req.valid = true) (ha : req.hasRepoAccess = true)
    (hw : is_success req.webhookStatus = true)
    (hk : is_success req.deployKeyStatus = true) :
    (repository_list_post req db).result = RegResult.response 201
    ∧ (repository_list_post req db).db = db ++ [Site.save req.basePath req.siteData] := by
  simp [repository_list_post, hv, ha, hw, hk]

/-- Witness for the amended C4 at a concrete successful registration. -/
theorem C4_record_without_handles_witness :
    (repository_list_post ⟨true, ⟨"site", "sha", "x"⟩, true, 201, 201, "base"⟩ []).result
        = RegResult.response 201
    ∧ (repository_list_post ⟨true, ⟨"site", "sha", "x"⟩, true, 201, 201, "base"⟩ []).db
        = [] ++ [Site.save "base" ⟨"site", "sha", "x"⟩] :=
  C4_record_without_handles ⟨true, ⟨"site", "sha", "x"⟩, true, 201, 201, "base"⟩ [] rfl rfl rfl rfl

/-- C6 fails on the code: a deregistration with access deletes the record
at once and returns 204 while making zero external calls; neither a
webhook delete nor a deploy key delete precedes the record deletion, and
no inactive marking exists on the model. -/
theorem C6_counterexample :
    repository_detail Method.delete 7 true [(7, ⟨"repo", "", "base/repo"⟩)]
      = ⟨RegResult.response 204, [], []⟩ := by
  decide

/-- C6 amended: repository_detail makes no external call on any path; once
the record is found and access is granted, a DELETE removes the record
immediately and unconditionally and returns 204, with no external deletes
and no inactive marking beforehand. -/
theorem C6_immediate_delete (pk : Nat) (hasAccess : Bool) (method : Method)
    (db : List (Nat × Site)) (e : Nat × Site)
    (hfind : db.find? (fun x => x.1 == pk) = some e) :
    (repository_detail method pk hasAccess db).calls = []
    ∧ (hasAccess = true → method = Method.delete →
        (repository_detail method pk hasAccess db).result = RegResult.response 204
        ∧ ∀ s : Site, (pk, s) ∉ (repository_detail method pk hasAccess db).db) := by
  constructor
  · cases hasAccess <;> cases method <;> simp [repository_detail, hfind]
  · rintro rfl rfl
    constructor
    · simp [repository_detail, hfind]
    · intro s hmem
      simp [repository_detail, hfind, List.mem_filter] at hmem

/-- Witness for the amended C6 at a concrete deregistration. -/
theorem C6_immediate_delete_witness :
    (repository_detail Method.delete 9 true [(9, ⟨"site", "", "base/site"⟩)]).calls = []
    ∧ (repository_detail Method.delete 9 true [(9, ⟨"site", "", "base/site"⟩)]).result
        = RegResult.response 204
    ∧ (9, (⟨"site", "", "base/site"⟩ : Site))
        ∉ (repository_detail Method.delete 9 true [(9, ⟨"site", "", "base/site"⟩)]).db :=
  ⟨(C6_immediate_delete 9 true Method.delete [(9, ⟨"site", "", "base/site"⟩)]
      (9, ⟨"site", "", "base/site"⟩) rfl).1,
   ((C6_immediate_delete 9 true Method.delete [(9, ⟨"site", "", "base/site"⟩)]
      (9, ⟨"site", "", "base/site"⟩) rfl).2 rfl rfl).1,
   ((C6_immediate_delete 9 true Method.delete [(9, ⟨"site", "", "base/site"⟩)]
      (9, ⟨"site", "", "base/site"⟩) rfl).2 rfl rfl).2 ⟨"site", "", "base/site"⟩⟩

end Franklin
